import Mathlib

/-!
# Verification of the MediAssist intake-to-case-record pipeline

Shallow embedding of `app.py` (Flask clinical-intake application).
Python strings are modelled as `List Char` (wrapped in `String` at the
interfaces); Python `dict`s holding JSON values are modelled as structures
with `Option` fields (a `none` field plays the role of an absent key);
exceptions are modelled with `Except String`.  The regular-expression
operations used by the source (`re.sub`, `re.split`) are embedded as
executable scanners with the exact leftmost / non-overlapping / lazy-group
semantics of Python's `re` module for the concrete patterns that occur in
the source.
-/

set_option maxRecDepth 40000

namespace MediAssist

/-! ## Python string primitives -/

/-- Python's whitespace set for `str.strip` and `\s`:
space, tab, newline, carriage return, vertical tab, form feed. -/
def pyWhitespace (c : Char) : Bool :=
  c == ' ' || c == '\t' || c == '\n' || c == '\r' || c == Char.ofNat 11 || c == Char.ofNat 12

/-- Python `str.strip()` on a character list. -/
def stripWs (l : List Char) : List Char :=
  ((l.dropWhile pyWhitespace).reverse.dropWhile pyWhitespace).reverse

/-- Auxiliary scanner for `splitOnChar`. -/
def splitOnCharAux (sep : Char) (acc : List Char) : List Char → List (List Char)
  | [] => [acc.reverse]
  | c :: cs =>
    if c == sep then acc.reverse :: splitOnCharAux sep [] cs
    else splitOnCharAux sep (c :: acc) cs

/-- Python `str.split(sep)` for a one-character separator
(always returns at least one piece, like Python). -/
def splitOnChar (sep : Char) (l : List Char) : List (List Char) :=
  splitOnCharAux sep [] l

/-- One-pass leftmost non-overlapping replacement of the literal pattern
`pat` by `rep`, i.e. `re.sub` for a literal pattern.  `fuel` bounds the
recursion; it is instantiated with the length of the scanned list, which
suffices because every step consumes at least one character. -/
def replaceAllFuel (pat rep : List Char) : Nat → List Char → List Char
  | 0, l => l
  | _ + 1, [] => []
  | n + 1, c :: cs =>
    if pat.isPrefixOf (c :: cs) then
      rep ++ replaceAllFuel pat rep n (List.drop pat.length (c :: cs))
    else c :: replaceAllFuel pat rep n cs

/-- `re.sub(pat, rep, l)` for a literal (regex-free) pattern `pat`. -/
def replaceAll (pat rep l : List Char) : List Char :=
  replaceAllFuel pat rep l.length l

/-! ## Text Normalizer (`clean_medical_text`, app.py lines 127-139) -/

/-- Scanner for the closing pair of `re.sub(r'\*\*(.+?)\*\*', ...)`
(with `d = '*'`, similarly `'_'`): consume non-newline characters into the
group until the first occurrence of `d, d`, which closes the match.
Returns the group and the remainder after the closing pair. -/
def emphScan (d : Char) : List Char → Option (List Char × List Char)
  | a :: b :: rest =>
    if a == d && b == d then some ([], rest)
    else if a == '\n' then none
    else (emphScan d (b :: rest)).map (fun gr => (a :: gr.1, gr.2))
  | _ => none

/-- Try to match `d d (.+?) d d` at the head of the list (the lazy group is
non-empty and contains no newline, exactly as `.` without `DOTALL`):
the first character after the opening pair always belongs to the group,
then `emphScan` finds the earliest closing pair. -/
def emphMatch (d : Char) : List Char → Option (List Char × List Char)
  | a :: b :: c :: rest =>
    if a == d && b == d && !(c == '\n') then
      match emphScan d rest with
      | some (g, r) => some (c :: g, r)
      | none => none
    else none
  | _ => none

/-- Replacement template `<strong>\1</strong>`. -/
def strongWrap (g : List Char) : List Char :=
  "<strong>".data ++ g ++ "</strong>".data

/-- Global leftmost non-overlapping substitution of `d d (.+?) d d` by
`<strong>\1</strong>`; fuel is the length of the scanned list. -/
def subPairFuel (d : Char) : Nat → List Char → List Char
  | 0, l => l
  | _ + 1, [] => []
  | n + 1, c :: cs =>
    match emphMatch d (c :: cs) with
    | some (g, rest) => strongWrap g ++ subPairFuel d n rest
    | none => c :: subPairFuel d n cs

/-- `re.sub(r'dd(.+?)dd', r'<strong>\1</strong>', l)` for `d` = `*` or `_`. -/
def subPair (d : Char) (l : List Char) : List Char :=
  subPairFuel d l.length l

/-- `clean_medical_text` (app.py 127-139): remove stray bracket-emphasis
artifacts, convert paired `**`/`__` emphasis to `<strong>` wrappers,
and trim; empty (falsy) input yields the empty string. -/
def clean_medical_text (s : String) : String :=
  if s = "" then ""
  else
    let t1 := replaceAll "[**".data [] s.data
    let t2 := replaceAll "**]".data [] t1
    let t3 := replaceAll "[*".data [] t2
    let t4 := replaceAll "*]".data [] t3
    let t5 := subPair '*' t4
    let t6 := subPair '_' t5
    (⟨stripWs t6⟩ : String)

/-! ## Diagnosis Extractor (`extract_diagnosis`, app.py 141-154) -/

/-- Character class of `re.sub(r'^[\d\.\-\*]+\s*', '', part)`. -/
def isNumMark (c : Char) : Bool :=
  c.isDigit || c == '.' || c == '-' || c == '*'

/-- `re.sub(r'^[\d\.\-\*]+\s*', '', l)`: the anchored pattern matches only
when the first character is in the class; on a match the (greedy) class run
and the following (greedy) whitespace run are removed. -/
def stripLeadingMarks (l : List Char) : List Char :=
  let l₁ := l.dropWhile isNumMark
  if l₁ = l then l else l₁.dropWhile pyWhitespace

/-- Python `part.startswith('-')`. -/
def startsWithDash : List Char → Bool
  | c :: _ => c == '-'
  | [] => false

/-- The `for part in parts` loop of `extract_diagnosis`: the first line
whose stripped form is non-empty and does not start with `-` and whose
mark-stripped, re-stripped form is longer than 10 characters is returned
in that processed form. -/
def extractLoop : List (List Char) → Option (List Char)
  | [] => none
  | part :: rest =>
    let p := stripWs part
    if !p.isEmpty && !startsWithDash p then
      let q := stripWs (stripLeadingMarks p)
      if q.length > 10 then some q else extractLoop rest
    else extractLoop rest

/-- `extract_diagnosis` (app.py 141-154). -/
def extract_diagnosis (s : String) : String :=
  if s = "" then "Pending clinical evaluation"
  else
    match extractLoop (splitOnChar '\n' s.data) with
    | some q => (⟨q⟩ : String)
    | none => (⟨(splitOnChar '\n' s.data).headI⟩ : String)

/-! ## List Formatter (`format_soap_as_list`, app.py 156-181) -/

/-- Separator matcher for `re.split(r'\n\d+\.\s+', text)`: newline, a
greedy non-empty digit run, a dot, a greedy non-empty whitespace run.
Returns the rest after the separator when it matches at the head. -/
def numSep : List Char → Option (List Char)
  | c :: cs =>
    if c == '\n' then
      let ds := cs.takeWhile Char.isDigit
      if ds.isEmpty then none
      else
        match cs.drop ds.length with
        | d :: r2 =>
          if d == '.' then
            let ws := r2.takeWhile pyWhitespace
            if ws.isEmpty then none else some (r2.drop ws.length)
          else none
        | [] => none
    else none
  | [] => none

/-- Separator matcher for `re.split(r'\n[\-\*]\s+', text)`. -/
def bulletSep : List Char → Option (List Char)
  | c :: b :: r2 =>
    if c == '\n' && (b == '-' || b == '*') then
      let ws := r2.takeWhile pyWhitespace
      if ws.isEmpty then none else some (r2.drop ws.length)
    else none
  | _ => none

/-- `re.split` driver: scan left to right; where the separator matcher
fires, close the current piece and continue after the separator.  Fuel is
the length of the scanned list (every step consumes at least one
character, matched separators being non-empty). -/
def splitSepFuel (m : List Char → Option (List Char)) :
    Nat → List Char → List Char → List (List Char)
  | 0, acc, l => [acc.reverse ++ l]
  | _ + 1, acc, [] => [acc.reverse]
  | n + 1, acc, c :: cs =>
    match m (c :: cs) with
    | some rest => acc.reverse :: splitSepFuel m n [] rest
    | none => splitSepFuel m n (c :: acc) cs

/-- `re.split` with separator matcher `m`. -/
def splitSep (m : List Char → Option (List Char)) (l : List Char) : List (List Char) :=
  splitSepFuel m l.length [] l

/-- `re.split(r'\n|(?<=[.!?])\s+', text)`: at each position a newline is a
one-character separator; otherwise a whitespace character preceded by
`.`, `!` or `?` opens a greedy whitespace-run separator.  `prev` carries
the previous character of the original string for the lookbehind. -/
def splitSentFuel : Nat → List Char → Option Char → List Char → List (List Char)
  | 0, acc, _, l => [acc.reverse ++ l]
  | _ + 1, acc, _, [] => [acc.reverse]
  | n + 1, acc, prev, c :: cs =>
    if c == '\n' then acc.reverse :: splitSentFuel n [] (some '\n') cs
    else if pyWhitespace c && (prev == some '.' || prev == some '!' || prev == some '?') then
      let ws := (c :: cs).takeWhile pyWhitespace
      acc.reverse :: splitSentFuel n [] ws.getLast? ((c :: cs).drop ws.length)
    else splitSentFuel n (c :: acc) (some c) cs

/-- The third-tier split of `format_soap_as_list`. -/
def splitSentences (l : List Char) : List (List Char) :=
  splitSentFuel l.length [] none l

/-- `format_soap_as_list` (app.py 156-181): three-tier fallback
(numbered split dropping the first segment, bulleted split dropping the
first segment, sentence split keeping stripped fragments longer than 10),
returning `[text]` when the chosen tier yields nothing. -/
def format_soap_as_list (s : String) : List String :=
  if s = "" then []
  else
    let t := s.data
    let numbered := splitSep numSep t
    let items : List String :=
      if numbered.length > 1 then
        (numbered.drop 1).map (fun i => (⟨stripWs i⟩ : String))
      else
        let bullets := splitSep bulletSep t
        if bullets.length > 1 then
          (bullets.drop 1).map (fun i => (⟨stripWs i⟩ : String))
        else
          (((splitSentences t).map stripWs).filter (fun i => i.length > 10)).map
            (fun i => (⟨i⟩ : String))
    if items = [] then [s] else items

/-! ### Sanity checks against the behaviour of the Python source -/

example : clean_medical_text "" = "" := by decide
example : clean_medical_text "plain text" = "plain text" := by decide
example : clean_medical_text "**bold**" = "<strong>bold</strong>" := by decide
example : clean_medical_text "****a****" = "<strong>**a</strong>**" := by decide

example : extract_diagnosis "" = "Pending clinical evaluation" := by decide
example :
    extract_diagnosis
      "- supporting detail\nViral upper respiratory infection, likely rhinovirus\n- secondary note" =
      "Viral upper respiratory infection, likely rhinovirus" := by decide
example : extract_diagnosis "1. Acute viral pharyngitis suspected\n- note" =
    "Acute viral pharyngitis suspected" := by decide
example : extract_diagnosis "short\ntiny" = "short" := by decide
example : extract_diagnosis "* Something quite long here\nshort" =
    "Something quite long here" := by decide

example : format_soap_as_list "" = [] := by decide
example : format_soap_as_list "1. Take rest\n2. Drink fluids" = ["Drink fluids"] := by decide
example : format_soap_as_list "Plan:\n- Rest well today\n- Fluids often" =
    ["Rest well today", "Fluids often"] := by decide
example : format_soap_as_list "Patient reports fever. Also cough present! Short. ok" =
    ["Patient reports fever.", "Also cough present!"] := by decide
example : format_soap_as_list "tiny" = ["tiny"] := by decide
example : format_soap_as_list "a. \nb sentence that is long" =
    ["b sentence that is long"] := by decide
example : format_soap_as_list "Intro:\n1.  Double space item\n2.\tTab item here" =
    ["Double space item", "Tab item here"] := by decide

/-! ## Data model (app.py 27-65, 253-344)

The parsed AI response `ai_analysis` is a JSON object; it is modelled as
structures whose `Option` fields stand for possibly-absent keys.  A direct
subscript access `d['k']` in the source is a fallible lookup (raising
`KeyError`), while `d.get('k', v)` is `Option.getD`. -/

/-- The `patient_view` sub-object of the AI response. -/
structure PatientView where
  summary : Option String
  pathophysiology : Option String
  care_plan : Option (List String)
  red_flags : Option (List String)
  primary_diagnosis : Option String
deriving DecidableEq

/-- The `doctor_view` sub-object of the AI response, including the derived
`*_list` companions written back by the pipeline. -/
structure DoctorView where
  subjective : Option String
  objective : Option String
  assessment : Option String
  plan : Option String
  subjective_list : Option (List String)
  objective_list : Option (List String)
  assessment_list : Option (List String)
  plan_list : Option (List String)
deriving DecidableEq

/-- The `safety` sub-object (never touched by the pipeline code). -/
structure SafetyInfo where
  is_safe : Option Bool
  warnings : Option (List String)
deriving DecidableEq

/-- `ai_analysis` as parsed from the model's JSON output. -/
structure AiAnalysis where
  patient_view : Option PatientView
  doctor_view : Option DoctorView
  safety : Option SafetyInfo
deriving DecidableEq

/-- One entry of `DOCTOR_DB` (app.py 30-52). -/
structure DoctorInfo where
  id : String
  name : String
  specialty : String
  password : String
  email : String
deriving DecidableEq

/-- `DOCTOR_DB` (app.py 30-52). -/
def DOCTOR_DB : List (String × DoctorInfo) :=
  [("dr_smith",
    ⟨"dr_smith", "Dr. James Smith", "General Medicine", "smith123", "smith@mediassist.com"⟩),
   ("dr_patel",
    ⟨"dr_patel", "Dr. Rajesh Patel", "Internal Medicine", "patel123", "patel@mediassist.com"⟩),
   ("dr_lee",
    ⟨"dr_lee", "Dr. Sarah Lee", "Infectious Diseases", "lee123", "lee@mediassist.com"⟩)]

/-- The `raw_data` dictionary assembled by `patient_submit`
(app.py 267-289).  Fields read with `request.form.get` keep their
`Option`; the three `or "None"`-coalesced fields are plain strings. -/
structure RawData where
  id : String
  timestamp : String
  patient_id : Option String
  patient_name : Option String
  doctor_id : String
  doctor_name : String
  name : Option String
  age : Option String
  gender : Option String
  weight : Option String
  height : Option String
  temp : Option String
  bp : Option String
  duration : Option String
  allergies : String
  current_meds : String
  history : String
  severity : Option String
  symptoms : Option String
  notes : Option String
  language : String
deriving DecidableEq

/-- One value of `CASE_DB` (app.py 330-333). -/
structure CaseEntry where
  raw_data : RawData
  ai_analysis : AiAnalysis
deriving DecidableEq

/-- `CASE_DB`, an insertion-ordered dictionary keyed by case id. -/
abbrev CaseDB := List (String × CaseEntry)

/-- Python dict assignment `CASE_DB[case_id] = entry`: replace in place if
the key exists, append otherwise. -/
def dbInsert (db : CaseDB) (k : String) (v : CaseEntry) : CaseDB :=
  if (db.lookup k).isSome then
    db.map (fun p => if p.1 = k then (k, v) else p)
  else db ++ [(k, v)]

/-- The Flask session: `user_id`, `role`, `name` (app.py 232-234). -/
structure Session where
  user_id : Option String
  role : Option String
  name : Option String
deriving DecidableEq

/-- The fields `patient_submit` reads from `request.form`
(`request.form.get` returns `None` for a missing field). -/
structure SubmitForm where
  language : Option String
  doctor_id : Option String
  name : Option String
  age : Option String
  gender : Option String
  weight : Option String
  height : Option String
  temperature : Option String
  blood_pressure : Option String
  duration : Option String
  allergies : Option String
  current_medications : Option String
  medical_history : Option String
  severity : Option String
  symptoms : Option String
  other_notes : Option String
deriving DecidableEq

/-- Python `x or "None"` for an optional form field: `None` and the empty
string are falsy and coalesce to the string `"None"`. -/
def orNoneStr (o : Option String) : String :=
  match o with
  | none => "None"
  | some a => if a = "" then "None" else a

/-- Python f-string interpolation of a possibly-`None` value:
`str(None)` prints as `"None"`. -/
def optStr (o : Option String) : String := o.getD "None"

/-- The `raw_data` dictionary built at app.py 267-289.  `case_id` and the
formatted `datetime.now()` string are inputs of the embedding. -/
def buildRawData (case_id now : String) (sess : Session) (doctor_id : String)
    (doc : DoctorInfo) (selected_language : String) (form : SubmitForm) : RawData :=
  { id := case_id
    timestamp := now
    patient_id := sess.user_id
    patient_name := sess.name
    doctor_id := doctor_id
    doctor_name := doc.name
    name := form.name
    age := form.age
    gender := form.gender
    weight := form.weight
    height := form.height
    temp := form.temperature
    bp := form.blood_pressure
    duration := form.duration
    allergies := orNoneStr form.allergies
    current_meds := orNoneStr form.current_medications
    history := orNoneStr form.medical_history
    severity := form.severity
    symptoms := form.symptoms
    notes := form.other_notes
    language := selected_language }

/-- `SYSTEM_PROMPT.format(language=selected_language)` (app.py 69-101,
293): the instruction template with `\x7blanguage\x7d` spliced and the
doubled braces of the JSON schema reduced to single braces. -/
def systemPromptFor (language : String) : String :=
  "\nACT AS: Senior Clinical Consultant & Medical Scribe.\nTASK: Analyze patient intake data and generate a structured clinical case file.\n\nLANGUAGE INSTRUCTION: \n- \"patient_view\" MUST be in " ++ language ++
  ". (Translate concepts to be culturally relevant).\n- \"doctor_view\" MUST be in ENGLISH (Standard Medical Terminology).\n\nOUTPUT FORMAT: Return ONLY valid JSON matching this schema:\n\x7b\n  \"patient_view\": \x7b\n    \"summary\": \"Warm, reassuring explanation in " ++ language ++
  ".\",\n    \"pathophysiology\": \"Simple analogy explaining the mechanism in " ++ language ++
  ".\",\n    \"care_plan\": [\"Step 1 in " ++ language ++ "\", \"Step 2 in " ++ language ++
  "\"],\n    \"red_flags\": [\"Urgent sign 1 in " ++ language ++ "\", \"Urgent sign 2 in " ++ language ++
  "\"]\n  \x7d,\n  \"doctor_view\": \x7b\n    \"subjective\": \"Professional medical terminology summary of HPI in ENGLISH.\",\n    \"objective\": \"Concise summary of reported vitals in ENGLISH.\",\n    \"assessment\": \"Differential diagnosis ranked by probability in ENGLISH.\",\n    \"plan\": \"Suggested pharmacotherapy, diagnostics, and follow-up in ENGLISH.\"\n  \x7d,\n  \"safety\": \x7b\n    \"is_safe\": true,\n    \"warnings\": []\n  \x7d\n\x7d\n\nSAFETY RULES:\n- Check for Drug-Allergy interactions (e.g., Penicillin allergy vs Amoxicillin).\n- Check for Contraindications based on age/history.\n- If unsafe, set \"is_safe\": false and add warnings (in English).\n"

/-- The f-string prompt of app.py 295-307. -/
def buildPrompt (rd : RawData) (selected_language : String) : String :=
  "\n        " ++ systemPromptFor selected_language ++
  "\n        \n        PATIENT DATA:\n        Name: " ++ optStr rd.name ++
  " (" ++ optStr rd.age ++ "y " ++ optStr rd.gender ++
  ")\n        Vitals: T:" ++ optStr rd.temp ++ " BP:" ++ optStr rd.bp ++
  "\n        Allergies: " ++ rd.allergies ++
  "\n        Meds: " ++ rd.current_meds ++
  "\n        History: " ++ rd.history ++
  "\n        Chief Complaint: " ++ optStr rd.symptoms ++
  " (Duration: " ++ optStr rd.duration ++ ", Severity: " ++ optStr rd.severity ++
  ")\n        Notes: " ++ optStr rd.notes ++
  "\n        Original Language Input: " ++ selected_language ++ "\n        "

/-! ## Case Pipeline post-processing (app.py 312-328) -/

/-- The `if 'doctor_view' in ai_analysis:` block (app.py 320-328):
clean the four SOAP narratives (direct subscripts, so a missing key
raises `KeyError`) and derive their `*_list` companions from the cleaned
text. -/
def postprocessDoctor (a : AiAnalysis) : Except String AiAnalysis :=
  match a.doctor_view with
  | none => .ok a
  | some dv =>
    match dv.subjective with
    | none => .error "'subjective'"
    | some subjective =>
      match dv.objective with
      | none => .error "'objective'"
      | some objective =>
        match dv.assessment with
        | none => .error "'assessment'"
        | some assessment =>
          match dv.plan with
          | none => .error "'plan'"
          | some plan =>
            let subjective := clean_medical_text subjective
            let objective := clean_medical_text objective
            let assessment := clean_medical_text assessment
            let plan := clean_medical_text plan
            .ok { a with doctor_view := some (
              { dv with
                subjective := some subjective
                objective := some objective
                assessment := some assessment
                plan := some plan
                subjective_list := some (format_soap_as_list subjective)
                objective_list := some (format_soap_as_list objective)
                assessment_list := some (format_soap_as_list assessment)
                plan_list := some (format_soap_as_list plan) } ) }

/-- The clean-up step 5 of the pipeline (app.py 312-328).  In the
`patient_view` block, `summary` and `pathophysiology` are direct
subscripts (raising on absence), `care_plan`/`red_flags` use `.get` with
default `[]`, and `primary_diagnosis` is assigned from
`extract_diagnosis(ai_analysis['doctor_view'].get('assessment', ''))` —
an unguarded subscript of `doctor_view`. -/
def postprocess_analysis (a : AiAnalysis) : Except String AiAnalysis :=
  match a.patient_view with
  | none => postprocessDoctor a
  | some pv =>
    match pv.summary with
    | none => .error "'summary'"
    | some summary =>
      match pv.pathophysiology with
      | none => .error "'pathophysiology'"
      | some pathophysiology =>
        match a.doctor_view with
        | none => .error "'doctor_view'"
        | some dv =>
          postprocessDoctor { a with patient_view := some (
            { pv with
              summary := some (clean_medical_text summary)
              pathophysiology := some (clean_medical_text pathophysiology)
              care_plan := some ((pv.care_plan.getD []).map clean_medical_text)
              red_flags := some ((pv.red_flags.getD []).map clean_medical_text)
              primary_diagnosis := some (extract_diagnosis (dv.assessment.getD "")) } ) }

/-! ## Routes (app.py 250-415) -/

/-- Outcome of `patient_submit`: redirect to the result page, or re-render
the intake form with an error message (used both for the validation error
and for the generic `except Exception` handler), or the decorators'
redirect to the landing page. -/
inductive SubmitResult where
  | redirectResult (case_id : String)
  | intakeError (msg : String)
  | redirectLanding
deriving DecidableEq

/-- `patient_submit` (app.py 250-344).  External effects are parameters:
`genAI` is `model.generate_content(prompt).text` (an `Except` models a
transport-level failure), `parseJson` is `json.loads` on the response
text, `case_id` is the generated uuid-derived token and `now` the
formatted timestamp.  The whole body runs inside `try/except Exception`,
so any raising step yields the `System Error:` intake page and leaves
`CASE_DB` untouched (`log_interaction` swallows its own errors and does
not affect the store, so it is not modelled). -/
def patient_submit (genAI : String → Except String String)
    (parseJson : String → Except String AiAnalysis)
    (sess : Session) (case_id now : String) (form : SubmitForm)
    (db : CaseDB) : SubmitResult × CaseDB :=
  if sess.user_id = none ∨ sess.role = none then (.redirectLanding, db)
  else if sess.role ≠ some "patient" then (.redirectLanding, db)
  else
    let selected_language := form.language.getD "English"
    match form.doctor_id with
    | none => (.intakeError "Please select a doctor", db)
    | some doctor_id =>
      if doctor_id = "" then (.intakeError "Please select a doctor", db)
      else
        match DOCTOR_DB.lookup doctor_id with
        | none => (.intakeError "Please select a doctor", db)
        | some doc =>
          let raw_data := buildRawData case_id now sess doctor_id doc selected_language form
          match genAI (buildPrompt raw_data selected_language) with
          | .error e => (.intakeError ("System Error: " ++ e), db)
          | .ok respText =>
            match parseJson respText with
            | .error e => (.intakeError ("System Error: " ++ e), db)
            | .ok ai_analysis =>
              match postprocess_analysis ai_analysis with
              | .error e => (.intakeError ("System Error: " ++ e), db)
              | .ok a =>
                (.redirectResult case_id, dbInsert db case_id ⟨raw_data, a⟩)

/-- Outcome of the read-by-id routes. -/
inductive PageResult where
  | page (c : CaseEntry)
  | notFound
  | redirectLanding
  | redirectDashboard (msg : String)
deriving DecidableEq

/-- `patient_result` (app.py 346-354) with its `login_required` and
`patient_required` decorators.  Note: the case fetched from `CASE_DB` is
rendered without comparing its `patient_id` to the session user. -/
def patient_result (sess : Session) (db : CaseDB) (case_id : String) : PageResult :=
  if sess.user_id = none ∨ sess.role = none then .redirectLanding
  else if sess.role ≠ some "patient" then .redirectLanding
  else
    match db.lookup case_id with
    | none => .notFound
    | some c => .page c

/-- `doctor_view` (app.py 399-415) with its decorators: the case is shown
only when its `raw_data['doctor_id']` equals the session user id. -/
def doctor_view (sess : Session) (db : CaseDB) (case_id : String) : PageResult :=
  if sess.user_id = none ∨ sess.role = none then .redirectLanding
  else if sess.role ≠ some "doctor" then .redirectLanding
  else
    match db.lookup case_id with
    | none => .notFound
    | some c =>
      if some c.raw_data.doctor_id ≠ sess.user_id then
        .redirectDashboard "You don't have access to this case"
      else .page c

/-- Ordering used by the dashboard: `a` may precede `b` when the
timestamp of `b` is at most that of `a` (`sorted(key=timestamp,
reverse=True)` is the stable descending sort, which
`List.insertionSort` with this total transitive relation produces). -/
def newestFirst (a b : CaseEntry) : Prop :=
  b.raw_data.timestamp ≤ a.raw_data.timestamp

instance : DecidableRel newestFirst := fun a b =>
  inferInstanceAs (Decidable (b.raw_data.timestamp ≤ a.raw_data.timestamp))

instance : IsTotal CaseEntry newestFirst :=
  ⟨fun a b => le_total b.raw_data.timestamp a.raw_data.timestamp⟩

instance : IsTrans CaseEntry newestFirst :=
  ⟨fun _ _ _ hab hbc => le_trans hbc hab⟩

/-- Outcome of `doctor_dashboard`. -/
inductive DashboardResult where
  | page (cases : List CaseEntry) (doctor : Option DoctorInfo)
  | redirectLanding
deriving DecidableEq

/-- `doctor_dashboard` (app.py 382-397) with its decorators: filter the
store's values by the session doctor id, sort newest first, and look the
doctor up in `DOCTOR_DB`. -/
def doctor_dashboard (sess : Session) (db : CaseDB) : DashboardResult :=
  if sess.user_id = none ∨ sess.role = none then .redirectLanding
  else if sess.role ≠ some "doctor" then .redirectLanding
  else
    let doctor_id := sess.user_id
    let doctor_cases :=
      (db.map Prod.snd).filter (fun c => some c.raw_data.doctor_id == doctor_id)
    let sorted_cases := List.insertionSort newestFirst doctor_cases
    .page sorted_cases (doctor_id.bind (fun d => DOCTOR_DB.lookup d))

/-! ## Concrete sample data used by witnesses and counterexamples -/

/-- A `patient_view` as the AI model may supply it, including a
model-supplied `primary_diagnosis`. -/
def richPV : PatientView :=
  { summary := some "You likely have a viral throat infection."
    pathophysiology := some "Viruses inflame the throat lining."
    care_plan := some ["Rest at home", "Drink warm fluids"]
    red_flags := some ["Difficulty breathing"]
    primary_diagnosis := some "Model-supplied diagnosis" }

/-- A `doctor_view` as the AI model supplies it (`*_list` keys absent). -/
def richDV : DoctorView :=
  { subjective := some "Patient reports sore throat for two days."
    objective := some "T:38.1 BP:120/80 reported."
    assessment := some "1. Acute viral pharyngitis\n2. Streptococcal pharyngitis less likely"
    plan := some "Supportive care. Follow up if worse."
    subjective_list := none
    objective_list := none
    assessment_list := none
    plan_list := none }

/-- A well-formed parsed AI response. -/
def richAnalysis : AiAnalysis :=
  { patient_view := some richPV
    doctor_view := some richDV
    safety := some ⟨some true, some []⟩ }

/-- The post-processed form of `richAnalysis` (evaluating the pipeline's
clean-up step on it; `postprocess_analysis richAnalysis` succeeds, so the
fallback branch is never taken). -/
def richPost : AiAnalysis :=
  match postprocess_analysis richAnalysis with
  | .ok a => a
  | .error _ => richAnalysis

/-- A stored case owned by `patient1` and assigned to `dr_smith`. -/
def smithRaw : RawData :=
  { id := "CASE0001"
    timestamp := "2025-01-01 10:00"
    patient_id := some "patient1"
    patient_name := some "John Doe"
    doctor_id := "dr_smith"
    doctor_name := "Dr. James Smith"
    name := some "John Doe"
    age := some "30"
    gender := some "Male"
    weight := some "70"
    height := some "175"
    temp := some "38.0"
    bp := some "120/80"
    duration := some "2 days"
    allergies := "None"
    current_meds := "None"
    history := "None"
    severity := some "Moderate"
    symptoms := some "Sore throat"
    notes := none
    language := "English" }

def smithCase : CaseEntry := ⟨smithRaw, richAnalysis⟩

/-- A second stored case, assigned to `dr_patel`. -/
def patelRaw : RawData :=
  { smithRaw with
    id := "CASE0002"
    timestamp := "2025-01-02 09:00"
    doctor_id := "dr_patel"
    doctor_name := "Dr. Rajesh Patel" }

def patelCase : CaseEntry := ⟨patelRaw, richAnalysis⟩

def sampleDb : CaseDB := [("CASE0001", smithCase)]

def twoCaseDb : CaseDB := [("CASE0001", smithCase), ("CASE0002", patelCase)]

/-- A complete, valid intake form selecting `dr_smith`. -/
def sampleForm : SubmitForm :=
  { language := some "English"
    doctor_id := some "dr_smith"
    name := some "John Doe"
    age := some "30"
    gender := some "Male"
    weight := some "70"
    height := some "175"
    temperature := some "38.0"
    blood_pressure := some "120/80"
    duration := some "2 days"
    allergies := none
    current_medications := none
    medical_history := none
    severity := some "Moderate"
    symptoms := some "Sore throat"
    other_notes := none }

/-- A logged-in patient session. -/
def patientSession : Session := ⟨some "patient1", some "patient", some "John Doe"⟩

/-! ## C1 — read-by-id visibility -/

/-- C1 (code evaluated at the failing input): `patient_result` returns a
stored case to an authenticated patient whose id differs from the
record's `patient_id` — the route performs no ownership comparison, so
the record is not visible only to its owning patient. -/
theorem patient_result_returns_other_patients_case :
    patient_result ⟨some "patient2", some "patient", none⟩ sampleDb "CASE0001" =
      .page smithCase ∧
    smithCase.raw_data.patient_id = some "patient1" := by
  exact ⟨rfl, rfl⟩

/-! ## C2 — the numbered-list example of the List Formatter -/

/-- C2 counterexample: on `"1. Take rest\n2. Drink fluids"` the formatter
does not return `["Take rest", "Drink fluids"]`: the numbered-marker
pattern requires a preceding newline, so `"1. Take rest"` is the first
segment and is discarded as preamble. -/
theorem to_list_numbered_example_ne_spec :
    format_soap_as_list "1. Take rest\n2. Drink fluids" ≠
      ["Take rest", "Drink fluids"] := by decide

/-- C2 amended: `to_list("1. Take rest\n2. Drink fluids")` =
`["Drink fluids"]` — the split markers are `"\n<digits>. "`, the segment
before the first marker (here `"1. Take rest"`) is discarded as preamble
and the remaining segments are returned trimmed. -/
theorem to_list_numbered_example :
    format_soap_as_list "1. Take rest\n2. Drink fluids" = ["Drink fluids"] := by decide

/-! ## C4 — the Diagnosis Extractor contract -/

/-- Follows the spec's words (§4.2): a line qualifies when (a) it does
not begin with the list-bullet character `-` and (b) after stripping any
leading numbering/bullet punctuation its length exceeds 10 characters.
"Line" is read as the whitespace-trimmed line; a blank line never
qualifies because its punctuation-stripped form has length 0. -/
def specQualifies (line : List Char) : Bool :=
  !startsWithDash (stripWs line) &&
    decide ((stripWs (stripLeadingMarks (stripWs line))).length > 10)

/-- The form in which a qualifying line is returned: the trimmed line
with the leading numbering/bullet punctuation of clause (b) stripped. -/
def specSelected (line : List Char) : List Char :=
  stripWs (stripLeadingMarks (stripWs line))

/-- The source's scan loop returns exactly the first line qualifying per
the spec, in its processed form. -/
theorem extractLoop_eq_find (l : List (List Char)) :
    extractLoop l = (l.find? specQualifies).map specSelected := by
  induction l with
  | nil => rfl
  | cons part rest ih =>
    by_cases hd : startsWithDash (stripWs part) = true
    · have hq : specQualifies part = false := by simp [specQualifies, hd]
      rw [List.find?_cons_of_neg _ (by simp [hq]), extractLoop]
      simp [hd, ih]
    · by_cases hl : (stripWs (stripLeadingMarks (stripWs part))).length > 10
      · have hp : (stripWs part).isEmpty = false := by
          cases h : stripWs part with
          | nil => rw [h] at hl; simp [stripLeadingMarks, stripWs] at hl
          | cons c cs => rfl
        have hq : specQualifies part = true := by
          simp [specQualifies, hd, hl]
        rw [List.find?_cons_of_pos _ hq, extractLoop]
        simp [hd, hp, hl, specSelected]
      · have hq : specQualifies part = false := by
          simp [specQualifies, hl]
        rw [List.find?_cons_of_neg _ (by simp [hq]), extractLoop]
        simp [hl, ih]

/-- C4: `extract_diagnosis` returns the sentinel
`"Pending clinical evaluation"` on empty input; on non-empty input it
returns the first qualifying line (per `specQualifies`, in its
punctuation-stripped form `specSelected`), and the first line of the text
verbatim when no line qualifies. -/
theorem extract_diagnosis_spec (s : String) :
    extract_diagnosis s =
      if s = "" then "Pending clinical evaluation"
      else
        match (splitOnChar '\n' s.data).find? specQualifies with
        | some line => (⟨specSelected line⟩ : String)
        | none => (⟨(splitOnChar '\n' s.data).headI⟩ : String) := by
  by_cases hs : s = ""
  · simp [extract_diagnosis, hs]
  · rw [extract_diagnosis, if_neg hs, if_neg hs, extractLoop_eq_find]
    cases (splitOnChar '\n' s.data).find? specQualifies <;> simp

/-! ## C5 — the List Formatter never returns empty on non-empty input -/

/-- The final `return items if items else [text]` of the formatter never
yields the empty list. -/
theorem items_or_text_ne_nil (s : String) (items : List String) :
    (if items = [] then [s] else items) ≠ [] := by
  split
  · simp
  · assumption

/-- C5: `to_list("")` is the empty sequence, and for every non-empty
input the returned sequence is non-empty (when the chosen tier yields
nothing, the one-element sequence `[text]` is returned). -/
theorem to_list_empty_and_nonempty :
    format_soap_as_list "" = [] ∧
    ∀ s : String, s ≠ "" → format_soap_as_list s ≠ [] := by
  refine ⟨rfl, fun s hs => ?_⟩
  unfold format_soap_as_list
  rw [if_neg hs]
  exact items_or_text_ne_nil s _

/-- Witness for C5 at the concrete input `"fever"`. -/
theorem to_list_empty_and_nonempty_witness :
    ("fever" : String) ≠ "" ∧ format_soap_as_list "fever" ≠ [] :=
  ⟨by decide, to_list_empty_and_nonempty.2 "fever" (by decide)⟩

/-! ## C6 — idempotence of the Text Normalizer -/

/-- C6 counterexample: normalization is not idempotent for every input:
on `"****a****"` the first pass produces `"<strong>**a</strong>**"`
(the lazy emphasis match leaves a stray `**` pair), and a second pass
wraps again. -/
theorem clean_not_idempotent :
    clean_medical_text (clean_medical_text "****a****") ≠
      clean_medical_text "****a****" := by decide

/-- C6 amended: idempotence holds on the spec's tested inputs `""`,
`"plain text"` and `"**bold**"` (it fails in general, see
`clean_not_idempotent`). -/
theorem clean_idempotent_on_tested_inputs :
    clean_medical_text (clean_medical_text "") = clean_medical_text "" ∧
    clean_medical_text (clean_medical_text "plain text") = clean_medical_text "plain text" ∧
    clean_medical_text (clean_medical_text "**bold**") = clean_medical_text "**bold**" :=
  ⟨by decide, by decide, by decide⟩

/-! ## C7 — missing/unknown doctor aborts the submission without effects -/

/-- C7: when the form has no doctor selected (absent or empty) or an
unknown doctor id, `patient_submit` reports the validation error and has
no side effects: the store is returned unchanged, and the right-hand
side mentions neither `genAI` nor `parseJson`, so no AI call is made. -/
theorem submit_invalid_doctor (genAI : String → Except String String)
    (parseJson : String → Except String AiAnalysis)
    (sess : Session) (case_id now : String) (form : SubmitForm) (db : CaseDB)
    (hu : sess.user_id.isSome) (hr : sess.role = some "patient")
    (hd : form.doctor_id = none ∨ form.doctor_id = some "" ∨
          ∀ d, form.doctor_id = some d → DOCTOR_DB.lookup d = none) :
    patient_submit genAI parseJson sess case_id now form db =
      (.intakeError "Please select a doctor", db) := by
  obtain ⟨u, hu⟩ := Option.isSome_iff_exists.mp hu
  rcases hd with hd | hd | hd
  · simp [patient_submit, hu, hr, hd]
  · simp [patient_submit, hu, hr, hd]
  · cases hfd : form.doctor_id with
    | none => simp [patient_submit, hu, hr, hfd]
    | some d =>
      have hl := hd d hfd
      by_cases hde : d = ""
      · simp [patient_submit, hu, hr, hfd, hde]
      · simp [patient_submit, hu, hr, hfd, hde, hl]

/-- Witness for C7: a logged-in patient submitting with no doctor chosen. -/
theorem submit_invalid_doctor_witness :
    patient_submit (fun _ => .ok "response") (fun _ => .error "ignored") patientSession
        "CASE0009" "2025-01-03 12:00" { sampleForm with doctor_id := none } [] =
      (.intakeError "Please select a doctor", []) :=
  submit_invalid_doctor (fun _ => .ok "response") (fun _ => .error "ignored") patientSession
    "CASE0009" "2025-01-03 12:00" { sampleForm with doctor_id := none } [] rfl rfl
    (Or.inl rfl)

/-! ## C3 — no JSON cleanup/retry pass exists in the pipeline -/

/-- Follows the spec's words (§4.4 step 4): the cleanup pass strips a
leading fenced-code marker line and a trailing fenced-code marker. -/
def specStripFence (s : String) : String :=
  let l0 := stripWs s.data
  let l1 :=
    if "```".data.isPrefixOf l0 then List.drop 1 (l0.dropWhile (fun c => !(c == '\n')))
    else l0
  let l2 :=
    if "```".data.isPrefixOf l1.reverse then (l1.reverse.drop 3).reverse
    else l1
  (⟨stripWs l2⟩ : String)

/-- Follows the spec's words (§4.4 step 4): parse; on failure apply the
cleanup pass once and retry parsing once. -/
def specParseWithRepair (parse : String → Except String AiAnalysis) (body : String) :
    Except String AiAnalysis :=
  match parse body with
  | .ok a => .ok a
  | .error _ => parse (specStripFence body)

/-- A toy `json.loads` stand-in accepting exactly the unfenced payload. -/
def toyParse : String → Except String AiAnalysis :=
  fun s => if s = "OK_PAYLOAD" then .ok richAnalysis else .error "Expecting value"

/-- A response body wrapped in a fenced-code block. -/
def fencedBody : String := "```json\nOK_PAYLOAD\n```"

/-- C3 counterexample: on a fenced but otherwise parseable response body
the claimed cleanup-and-retry would succeed, yet `patient_submit` fails
and stores nothing — the code calls `json.loads` exactly once and never
applies a cleanup pass. -/
theorem submit_no_cleanup_pass :
    specParseWithRepair toyParse fencedBody = .ok richAnalysis ∧
    patient_submit (fun _ => .ok fencedBody) toyParse patientSession "CASE0004"
        "2025-01-01 10:00" sampleForm [] =
      (.intakeError ("System Error: " ++ "Expecting value"), []) := by
  exact ⟨rfl, rfl⟩

/-- C3 amended: when the AI response body fails to parse as JSON, no
cleanup or retry occurs — the submission fails through the generic
exception handler and no case record is written to the store. -/
theorem submit_parse_failure_no_store
    (parseJson : String → Except String AiAnalysis)
    (sess : Session) (case_id now : String) (form : SubmitForm) (db : CaseDB)
    (r e d : String) (doc : DoctorInfo)
    (hu : sess.user_id.isSome) (hr : sess.role = some "patient")
    (hd : form.doctor_id = some d) (hne : d ≠ "")
    (hdoc : DOCTOR_DB.lookup d = some doc)
    (hp : parseJson r = .error e) :
    patient_submit (fun _ => .ok r) parseJson sess case_id now form db =
      (.intakeError ("System Error: " ++ e), db) := by
  obtain ⟨u, hu⟩ := Option.isSome_iff_exists.mp hu
  simp [patient_submit, hu, hr, hd, hne, hdoc, hp]

/-- Witness for C3's amended statement: a body the parser rejects. -/
theorem submit_parse_failure_no_store_witness :
    patient_submit (fun _ => .ok "not json") (fun _ => .error "Expecting value")
        patientSession "CASE0003" "2025-01-01 10:00" sampleForm [] =
      (.intakeError ("System Error: " ++ "Expecting value"), []) :=
  submit_parse_failure_no_store (fun _ => .error "Expecting value") patientSession
    "CASE0003" "2025-01-01 10:00" sampleForm [] "not json" "Expecting value" "dr_smith"
    ⟨"dr_smith", "Dr. James Smith", "General Medicine", "smith123", "smith@mediassist.com"⟩
    rfl rfl rfl (by decide) rfl rfl

/-! ## C9 — primary_diagnosis is always derived, never kept -/

/-- A successful `doctor_view` pass leaves `patient_view` untouched. -/
theorem postprocessDoctor_patient_view (b b' : AiAnalysis)
    (h : postprocessDoctor b = .ok b') : b'.patient_view = b.patient_view := by
  obtain ⟨bpv, bdv, bsf⟩ := b
  cases bdv with
  | none =>
    injection h with h2
    rw [← h2]
  | some dv =>
    obtain ⟨s1, s2, s3, s4, l1, l2, l3, l4⟩ := dv
    cases s1 with
    | none => injection h
    | some v1 =>
      cases s2 with
      | none => injection h
      | some v2 =>
        cases s3 with
        | none => injection h
        | some v3 =>
          cases s4 with
          | none => injection h
          | some v4 =>
            injection h with h2
            rw [← h2]

/-- C9: whenever the parsed AI response contains a `patient_view` and a
`doctor_view` and the clean-up pass succeeds, the resulting
`patient_view.primary_diagnosis` is exactly the Diagnosis Extractor's
result over the response's `doctor_view.assessment` (with default `""`),
for every model-supplied `primary_diagnosis` — the always-derive policy,
not the only-as-fallback policy. -/
theorem primary_diagnosis_always_derived (a a' : AiAnalysis) (pv : PatientView)
    (dv : DoctorView) (hpv : a.patient_view = some pv) (hdv : a.doctor_view = some dv)
    (hok : postprocess_analysis a = .ok a') :
    a'.patient_view.map (fun q => q.primary_diagnosis) =
      some (some (extract_diagnosis (dv.assessment.getD ""))) := by
  obtain ⟨apv, adv, asf⟩ := a
  have hpv' : apv = some pv := hpv
  have hdv' : adv = some dv := hdv
  subst hpv' hdv'
  obtain ⟨s, pth, cp, rf, pd⟩ := pv
  cases s with
  | none => exact Except.noConfusion hok
  | some su =>
    cases pth with
    | none => exact Except.noConfusion hok
    | some pa =>
      have hok' : postprocessDoctor
          (⟨some ⟨some (clean_medical_text su), some (clean_medical_text pa),
              some ((cp.getD []).map clean_medical_text),
              some ((rf.getD []).map clean_medical_text),
              some (extract_diagnosis (dv.assessment.getD ""))⟩,
            some dv, asf⟩ : AiAnalysis) = .ok a' := hok
      have hview := postprocessDoctor_patient_view _ _ hok'
      rw [hview]
      rfl

/-- Witness for C9: the model supplied `primary_diagnosis` of `richPV` is
discarded and replaced by the extractor's result over the assessment. -/
theorem primary_diagnosis_always_derived_witness :
    richPV.primary_diagnosis = some "Model-supplied diagnosis" ∧
    some "Model-supplied diagnosis" ≠
      some (extract_diagnosis (richDV.assessment.getD "")) ∧
    richPost.patient_view.map (fun q => q.primary_diagnosis) =
      some (some (extract_diagnosis (richDV.assessment.getD ""))) :=
  ⟨rfl, by decide,
   primary_diagnosis_always_derived richAnalysis richPost richPV richDV rfl rfl rfl⟩

/-! ## C10 — a missing doctor_view fails the whole case -/

/-- C10: when the parsed response contains `patient_view` (with its
mandatory `summary` and `pathophysiology` keys) but lacks `doctor_view`,
the unguarded `ai_analysis['doctor_view']` subscript raises, the generic
handler reports a system error, and no case record is persisted — the
missing sub-object is not repaired locally. -/
theorem submit_missing_doctor_view_fails
    (parseJson : String → Except String AiAnalysis)
    (sess : Session) (case_id now : String) (form : SubmitForm) (db : CaseDB)
    (r : String) (a : AiAnalysis) (pv : PatientView) (su pa d : String)
    (doc : DoctorInfo)
    (hu : sess.user_id.isSome) (hr : sess.role = some "patient")
    (hd : form.doctor_id = some d) (hne : d ≠ "")
    (hdoc : DOCTOR_DB.lookup d = some doc)
    (hp : parseJson r = .ok a)
    (hpv : a.patient_view = some pv) (hsu : pv.summary = some su)
    (hpa : pv.pathophysiology = some pa) (hdv : a.doctor_view = none) :
    patient_submit (fun _ => .ok r) parseJson sess case_id now form db =
      (.intakeError ("System Error: " ++ "'doctor_view'"), db) := by
  obtain ⟨u, hu⟩ := Option.isSome_iff_exists.mp hu
  have hpost : postprocess_analysis a = .error "'doctor_view'" := by
    obtain ⟨apv, adv, asf⟩ := a
    have h1 : apv = some pv := hpv
    have h2 : adv = none := hdv
    subst h1 h2
    obtain ⟨s, pth, cp, rf, pd⟩ := pv
    have h3 : s = some su := hsu
    have h4 : pth = some pa := hpa
    subst h3 h4
    rfl
  simp [patient_submit, hu, hr, hd, hne, hdoc, hp, hpost]

/-- A parsed response with `patient_view` but no `doctor_view`. -/
def orphanAnalysis : AiAnalysis :=
  { patient_view := some richPV, doctor_view := none, safety := none }

/-- Witness for C10 at `orphanAnalysis`. -/
theorem submit_missing_doctor_view_fails_witness :
    patient_submit (fun _ => .ok "response") (fun _ => .ok orphanAnalysis) patientSession
        "CASE0005" "2025-01-01 10:00" sampleForm [] =
      (.intakeError ("System Error: " ++ "'doctor_view'"), []) :=
  submit_missing_doctor_view_fails (fun _ => .ok orphanAnalysis) patientSession
    "CASE0005" "2025-01-01 10:00" sampleForm [] "response" orphanAnalysis richPV
    "You likely have a viral throat infection." "Viruses inflame the throat lining."
    "dr_smith"
    ⟨"dr_smith", "Dr. James Smith", "General Medicine", "smith123", "smith@mediassist.com"⟩
    rfl rfl rfl (by decide) rfl rfl rfl rfl rfl rfl

/-! ## C8 — the doctor dashboard lists only assigned cases, newest first -/

/-- C8: a rendered dashboard page shows only cases whose `doctor_id`
equals the session doctor id, ordered by creation time descending
(`newestFirst` on the stored timestamps), for every store contents. -/
theorem dashboard_only_assigned_and_sorted (sess : Session) (db : CaseDB)
    (cases : List CaseEntry) (doc : Option DoctorInfo)
    (h : doctor_dashboard sess db = .page cases doc) :
    (∀ c ∈ cases, some c.raw_data.doctor_id = sess.user_id) ∧
    cases.Pairwise newestFirst := by
  unfold doctor_dashboard at h
  split at h
  · exact absurd h (by simp)
  · split at h
    · exact absurd h (by simp)
    · injection h with h1 h2
      subst h1
      constructor
      · intro c hc
        have hmem :
            c ∈ (db.map Prod.snd).filter
              (fun c => some c.raw_data.doctor_id == sess.user_id) :=
          ((List.perm_insertionSort newestFirst _).mem_iff).mp hc
        have hbeq := (List.mem_filter.mp hmem).2
        simpa using hbeq
      · exact List.sorted_insertionSort newestFirst _

/-- A logged-in doctor session for `dr_smith`. -/
def doctorSession : Session := ⟨some "dr_smith", some "doctor", some "Dr. James Smith"⟩

/-- Witness for C8 over the two-case store: `dr_smith`'s dashboard shows
exactly the case assigned to `dr_smith`, sorted. -/
theorem dashboard_only_assigned_and_sorted_witness :
    (some smithCase.raw_data.doctor_id = doctorSession.user_id) ∧
    List.Pairwise newestFirst [smithCase] :=
  ⟨(dashboard_only_assigned_and_sorted doctorSession twoCaseDb [smithCase]
      (DOCTOR_DB.lookup "dr_smith") rfl).1 smithCase (by simp),
   (dashboard_only_assigned_and_sorted doctorSession twoCaseDb [smithCase]
      (DOCTOR_DB.lookup "dr_smith") rfl).2⟩

end MediAssist
